import Mathlib

/-!
Shallow embedding of the live-well-ai advisory pipeline.

The embedding covers:
* `src/agents/fitness_planner.py` — the tool-call loop (`fitness_planner`,
  `execute_tool`), embedded as `LiveWell.fitnessPlanner` / `LiveWell.execute_tool`.
  The OpenAI chat client is abstracted as an `Engine` function; a transport
  failure is an `Except.error`.  Python `str.strip()` is embedded as `pyStrip`,
  `str.lower()` as `pyLower`.
* `src/state.py` / the LangGraph orchestrator wiring of `src/main.py` and
  `src/nodes.py` — the shared state is a string-keyed map, partial updates are
  association lists, and the sequential executor follows the edge list declared
  in `build_graph`.
* `src/agents/hydration_supplement.py` and `src/agents/consultation.py` —
  the `HydrationSupplementAgent` constructor check and `run_consultation`.

Python exceptions are modelled with `Except String`; machine floats that are
never computed with are modelled as rationals.
-/

namespace LiveWell

/-- Python `str.strip()`: remove whitespace characters from both ends. -/
def stripEnd (l : List Char) : List Char :=
  (l.reverse.dropWhile Char.isWhitespace).reverse

/-- Python `str.strip()` on the string level. -/
def pyStrip (s : String) : String :=
  String.mk (stripEnd (s.data.dropWhile Char.isWhitespace))

/-- Python `str.lower()`: lowercase character by character. -/
def pyLower (s : String) : String :=
  String.mk (s.data.map Char.toLower)

/-- One requested tool call: `tc.id` and `tc.function.name`. -/
structure ToolCall where
  id : String
  fname : String
deriving DecidableEq, Repr

/-- `choice.message`: optional text content plus the requested tool calls. -/
structure Message where
  content : Option String
  tool_calls : List ToolCall
deriving DecidableEq, Repr

/-- `chat.choices[0]`: a finish reason and a message. -/
structure Choice where
  finish_reason : String
  message : Message
deriving DecidableEq, Repr

/-- The `tool_choice` policy of a chat-completion request: `"required"`,
`"auto"`, or (fallback round) no tools declared at all. -/
inductive ToolPolicy where
  | required
  | auto
  | disabled
deriving DecidableEq, Repr

/-- One turn of the conversation transcript (`messages` list). -/
inductive Turn where
  | system (content : String)
  | user (content : String)
  | assistant (content : Option String) (tool_calls : List ToolCall)
  | tool (tool_call_id : String) (content : String)
deriving DecidableEq, Repr

/-- One chat-completion request as the loop issues it: a running call index,
the tool policy of this call, and the transcript sent. -/
structure EngineReq where
  idx : Nat
  policy : ToolPolicy
  messages : List Turn

/-- The reasoning-engine transport: every call either returns a `Choice` or
fails (network/auth/malformed response), modelled as `Except.error`. -/
def Engine : Type := EngineReq → Except String Choice

/-- `_safe_str`: coerce a possibly-`None` value to a string. -/
def safe_str : Option String → String
  | none => ""
  | some s => s

/-- Failure text produced by `execute_tool`'s internal `except` clause. -/
def toolFailText (tool e : String) : String :=
  "(tool \x27" ++ tool ++ "\x27 failed: " ++ e ++ ")"

/-- `execute_tool` from `fitness_planner.py`: normalize the name, dispatch to
the `time` / `weather` executors (abstracted as `Except`-valued parameters,
their exceptions absorbed into failure text), else return the tagged
unknown-tool text.  It never raises. -/
def execute_tool (timeImpl weatherImpl : Except String String) (tool_name : String) : String :=
  if pyLower (pyStrip tool_name) = "time" then
    match timeImpl with
    | .ok s => s
    | .error e => toolFailText (pyLower (pyStrip tool_name)) e
  else if pyLower (pyStrip tool_name) = "weather" then
    match weatherImpl with
    | .ok s => s
    | .error e => toolFailText (pyLower (pyStrip tool_name)) e
  else
    "Unknown tool: " ++ pyLower (pyStrip tool_name)

/-- The `_SYSTEM` prompt string of `fitness_planner.py`. -/
def SYSTEM_PROMPT : String :=
  "You are a certified fitness coach. Create safe, practical workout plans for adults. " ++
  "Balance cardio and strength, include warm-up and cool-down, and respect user constraints. " ++
  "When planning, you should request up-to-date Singapore weather via the provided tool before finalizing."

/-- `_build_user_prompt` from `fitness_planner.py`. -/
def buildUserPrompt (user_goal : String) : String :=
  "User goal & constraints:\n" ++ pyStrip user_goal ++ "\n\n" ++
  "First, request any tools you need (e.g., weather, time). " ++
  "Only after tool results are returned, produce the final **2-week fitness plan** following these rules:\n" ++
  "1) 3-5 sessions/week as appropriate for the goal and fitness level.\n" ++
  "2) Include warm-up and cool-down for each session.\n" ++
  "3) Mix cardio and strength; suggest sets x reps or time.\n" ++
  "4) Adapt to weather: Rain/Thunder/Haze -> prefer indoor/covered that day; Hot/Humid -> reduce outdoor HIIT and add hydration notes.\n" ++
  "5) Output sections:\n" ++
  "   - Overview (2-3 lines)\n" ++
  "   - Week 1 (Day-by-day bullets)\n" ++
  "   - Week 2 (Day-by-day bullets)\n" ++
  "   - Progression & Safety (bullets)\n" ++
  "   - Weather & Equipment Adjustments (bullets)\n" ++
  "   - Optional Tips (bullets)\n"

/-- The initial transcript `[system, user]` built by `fitness_planner`. -/
def initMessages (goal : String) : List Turn :=
  [Turn.system SYSTEM_PROMPT, Turn.user (buildUserPrompt goal)]

/-- `max_tool_hops = 3`. -/
def maxToolHops : Nat := 3

/-- Result of the `while` loop: the last choice obtained (or the transport
error that aborted it), the transcript built so far, and the index the next
engine call would use (equivalently, the number of engine calls issued). -/
structure LoopOut where
  res : Except String Choice
  msgs : List Turn
  nextIdx : Nat
deriving Repr

/-- The `while choice.finish_reason == "tool_calls" and choice.message.tool_calls
and hops < max_tool_hops` loop of `fitness_planner`.  `fuel` is the number of
remaining hops (`max_tool_hops - hops`); each iteration appends the assistant
turn, executes each requested tool in order appending its result turn, and
re-sends the transcript. -/
def loopRun (engine : Engine) (timeImpl weatherImpl : Except String String) :
    Nat → List Turn → Choice → Nat → LoopOut
  | 0, msgs, choice, idx => ⟨.ok choice, msgs, idx⟩
  | fuel + 1, msgs, choice, idx =>
    if choice.finish_reason = "tool_calls" ∧ choice.message.tool_calls ≠ [] then
      let msgs1 := msgs ++ [Turn.assistant choice.message.content choice.message.tool_calls]
      let msgs2 := choice.message.tool_calls.foldl
        (fun acc tc => acc ++ [Turn.tool tc.id (execute_tool timeImpl weatherImpl tc.fname)]) msgs1
      match engine ⟨idx, ToolPolicy.auto, msgs2⟩ with
      | .error e => ⟨.error e, msgs2, idx + 1⟩
      | .ok chat => loopRun engine timeImpl weatherImpl fuel msgs2 chat (idx + 1)
    else
      ⟨.ok choice, msgs, idx⟩

/-- Overall outcome of one `fitness_planner` invocation: the returned partial
update (or the Python exception that escaped), the number of reasoning-engine
calls issued, and the final transcript. -/
structure FPOut where
  result : Except String (List (String × String))
  calls : Nat
  transcript : List Turn
deriving Repr

/-- The placeholder update returned when `user_goal` is blank. -/
def goalPlaceholder : String :=
  "Please provide your goal and constraints in \x27user_goal\x27."

/-- The `AttributeError` Python raises when the fallback response has `None`
content and `.strip()` is called on it. -/
def noneStripError : String :=
  "AttributeError: \x27NoneType\x27 object has no attribute \x27strip\x27"

/-- The trailing fallback of `fitness_planner` (lines 133-139): one more
engine call with no tools declared; whatever content it returns is stripped
and returned as the plan — there is no emptiness check, and `None` content
raises `AttributeError`. -/
def fitnessFallback (engine : Engine) (msgs : List Turn) (idx : Nat) : FPOut :=
  match engine ⟨idx, ToolPolicy.disabled, msgs⟩ with
  | .error e => ⟨.error e, idx + 1, msgs⟩
  | .ok chat =>
    match chat.message.content with
    | none => ⟨.error noneStripError, idx + 1, msgs⟩
    | some c => ⟨.ok [("fitness_plan", pyStrip c)], idx + 1, msgs⟩

/-- What `fitness_planner` does once the `while` loop is over (lines
129-139): if the loop aborted with a transport error that exception
propagates; else, if the last choice's content is truthy it is stripped and
returned, otherwise the fallback call runs. -/
def fitnessAfterLoop (engine : Engine) (lo : LoopOut) : FPOut :=
  match lo with
  | ⟨.error e, msgs1, idx⟩ => ⟨.error e, idx, msgs1⟩
  | ⟨.ok choice, msgs1, idx⟩ =>
    match choice.message.content with
    | some c =>
      if c ≠ "" then ⟨.ok [("fitness_plan", pyStrip c)], idx, msgs1⟩
      else fitnessFallback engine msgs1 idx
    | none => fitnessFallback engine msgs1 idx

/-- `fitness_planner` from `fitness_planner.py`: blank-goal guard, initial
`tool_choice="required"` call, the tool-call loop, the final-answer check
`if choice.message and choice.message.content`, and the fallback call. -/
def fitnessPlanner (engine : Engine) (timeImpl weatherImpl : Except String String)
    (user_goal : Option String) : FPOut :=
  if pyStrip (safe_str user_goal) = "" then
    ⟨.ok [("fitness_plan", goalPlaceholder)], 0, []⟩
  else
    match engine ⟨0, ToolPolicy.required, initMessages (pyStrip (safe_str user_goal))⟩ with
    | .error e => ⟨.error e, 1, initMessages (pyStrip (safe_str user_goal))⟩
    | .ok choice0 =>
      fitnessAfterLoop engine
        (loopRun engine timeImpl weatherImpl maxToolHops
          (initMessages (pyStrip (safe_str user_goal))) choice0 1)

/-! ## Shared state and pipeline (`src/state.py`, `src/nodes.py`, `src/main.py`) -/

/-- The shared LangGraph state: a string-keyed map of field values, `none`
for a field never written (the schema of `src/state.py` fixes which keys are
meaningful, but the map view matches Python `dict` semantics). -/
def StateMap : Type := String → Option String

/-- A partial update returned by a node: a key/value association list. -/
def Update : Type := List (String × String)

/-- Modelled from the spec: the partial-update merge performed by the
LangGraph orchestrator (the framework code is not part of src/, which only
declares the `State` schema).  For each key in the update, overwrite; keys
absent from the update are untouched; it is total. -/
def applyUpdate (s : StateMap) (u : Update) : StateMap :=
  fun k =>
    match u.lookup k with
    | some v => some v
    | none => s k

/-- `state.get(key, "")`. -/
def getS (st : StateMap) (k : String) : String := (st k).getD ""

/-- `human_node` from `nodes.py`: store the stripped console input as
`user_goal` and reset the downstream fields.  The console read is abstracted
as the `user_input` parameter. -/
def human_node (user_input : String) : Update :=
  [("user_goal", pyStrip user_input), ("fitness_plan", ""),
   ("nutrition_plan", ""), ("hydration_supplement", "")]

/-- `fitness_planner_node` from `nodes.py`: run `fitness_planner`, strip the
returned `fitness_plan` text, and either return the plan update (plus
`user_context`) or the empty update; an exception from `fitness_planner`
propagates. -/
def fitness_planner_node (engine : Engine) (timeImpl weatherImpl : Except String String)
    (st : StateMap) : Except String Update :=
  match fitnessPlanner engine timeImpl weatherImpl (st "user_goal") with
  | ⟨.error e, _, _⟩ => .error e
  | ⟨.ok result, _, _⟩ =>
    let plain_text := pyStrip ((result.lookup "fitness_plan").getD "")
    if plain_text = "" then .ok []
    else .ok [("fitness_plan", plain_text), ("user_context", getS st "user_goal")]

/-- `nutritionist_node` from `nodes.py`.  The agent function `nutritionist`
it calls is imported in `nodes.py` but absent from src (no such symbol in
`agents/nutritionist.py`); modelled from the spec as an arbitrary specialist
step `nutr` returning a partial update, from which the node extracts and
strips `nutrition_plan`. -/
def nutritionist_node (nutr : StateMap → Update) (st : StateMap) : Update :=
  let plain_text := pyStrip (((nutr st).lookup "nutrition_plan").getD "")
  if plain_text = "" then [] else [("nutrition_plan", plain_text)]

/-- `hydration_supplement_node` from `nodes.py`.  The agent function
`hydration_supplement` it calls is imported but absent from src; modelled
from the spec as an arbitrary specialist step `hydr`. -/
def hydration_supplement_node (hydr : StateMap → Update) (st : StateMap) : Update :=
  let plain_text := pyStrip (((hydr st).lookup "hydration_supplement").getD "")
  if plain_text = "" then [] else [("hydration_supplement", plain_text)]

/-- `summarizer_node` from `nodes.py`: prints the summary and returns the
empty update (the summarizer LLM call absorbs its own failures and only
affects console output, not the state). -/
def summarizer_node (_st : StateMap) : Update := []

/-- The edge list declared in `build_graph` of `main.py`. -/
def buildGraphEdges : List (String × String) :=
  [("START", "human"), ("human", "fitness_planner"),
   ("fitness_planner", "nutritionist"), ("nutritionist", "hydration"),
   ("hydration", "summarizer"), ("summarizer", "END")]

/-- The node execution order determined by following the declared edges from
`START` until `END`. -/
def execOrder (edges : List (String × String)) : Nat → String → List String
  | 0, _ => []
  | fuel + 1, cur =>
    match edges.lookup cur with
    | none => []
    | some nxt => if nxt = "END" then [] else nxt :: execOrder edges fuel nxt

/-- Dispatch from a node name to the node function registered for it in
`build_graph`. -/
def nodeFn (engine : Engine) (timeImpl weatherImpl : Except String String)
    (nutr hydr : StateMap → Update) (user_input : String) :
    String → StateMap → Except String Update
  | "human", _ => .ok (human_node user_input)
  | "fitness_planner", st => fitness_planner_node engine timeImpl weatherImpl st
  | "nutritionist", st => .ok (nutritionist_node nutr st)
  | "hydration", st => .ok (hydration_supplement_node hydr st)
  | "summarizer", st => .ok (summarizer_node st)
  | _, _ => .ok []

/-- Modelled from the spec: the compiled LangGraph executor (framework code,
not in src/) runs the nodes strictly sequentially in the declared order,
applying each node's partial update to the shared state before the next node
runs; an exception raised by a node aborts the run.  Returns the final state
and the trace of executed node names. -/
def runNodes (engine : Engine) (timeImpl weatherImpl : Except String String)
    (nutr hydr : StateMap → Update) (user_input : String) :
    List String → StateMap → Except String (StateMap × List String)
  | [], st => .ok (st, [])
  | n :: rest, st =>
    (nodeFn engine timeImpl weatherImpl nutr hydr user_input n st).bind fun u =>
      (runNodes engine timeImpl weatherImpl nutr hydr user_input rest (applyUpdate st u)).map
        fun p => (p.1, n :: p.2)

/-- `graph.invoke` on the graph built by `build_graph`: execute the node
sequence determined by the declared edges. -/
def runGraph (engine : Engine) (timeImpl weatherImpl : Except String String)
    (nutr hydr : StateMap → Update) (user_input : String) (st0 : StateMap) :
    Except String (StateMap × List String) :=
  runNodes engine timeImpl weatherImpl nutr hydr user_input
    (execOrder buildGraphEdges 6 "START") st0

/-- The seed state of `main.py` (all advisory fields blank). -/
def initialState : StateMap :=
  fun k =>
    if k = "user_goal" ∨ k = "fitness_plan" ∨ k = "nutrition_plan" ∨ k = "hydration_supplement"
    then some "" else none

/-! ## Hydration agent and consultation (`src/agents/hydration_supplement.py`,
`src/agents/consultation.py`) -/

namespace HydrationSupplement

/-- `UserProfile` dataclass of `hydration_supplement.py` (mass as a rational). -/
structure UserProfile where
  name : String
  body_mass_kg : ℚ
  height_cm : Option ℚ := none
  sex : Option String := none
  age : Option Int := none
  caffeine_sensitive : Bool := false
  vegetarian_or_vegan : Bool := false
  kidney_issue : Bool := false
  pregnant_or_breastfeeding : Bool := false
  fish_allergy : Bool := false
  on_anticoagulants : Bool := false
  vitamin_d_deficient_or_low_sun : Bool := false
  sodium_restricted : Bool := false

/-- `Climate` dataclass. -/
structure Climate where
  avg_temp_c : ℚ
  avg_humidity_pct : ℚ
  altitude_m : Option Int := none

/-- `Workout` dataclass. -/
structure Workout where
  day_of_week : String
  minutes : Nat
  intensity : String
  is_outdoor : Bool := true

/-- `PlanConfig` dataclass with its defaults (float ranges as rationals). -/
structure PlanConfig where
  weeks : Nat := 4
  baseline_ml_per_kg : Nat := 35
  prehydrate_ml_per_kg : Nat × Nat := (5, 7)
  topup_ml_per_kg_2h : Nat × Nat := (3, 5)
  during_lph_range : ℚ × ℚ := (2/5, 4/5)
  sodium_mg_per_hour_range : Nat × Nat := (300, 600)
  post_replace_factor_range : ℚ × ℚ := (5/4, 3/2)

/-- A successfully constructed `HydrationSupplementAgent`. -/
structure Agent where
  user : UserProfile
  climate : Climate
  weeks : List (List Workout)
  cfg : PlanConfig

/-- `HydrationSupplementAgent.__init__`: raise `ValueError` when the number
of week entries differs from `cfg.weeks`, otherwise store the fields. -/
def mkAgent (user : UserProfile) (climate : Climate)
    (workouts_by_week : List (List Workout)) (cfg : PlanConfig) :
    Except String Agent :=
  if workouts_by_week.length ≠ cfg.weeks then
    .error ("Expected " ++ toString cfg.weeks ++ " weeks of workouts, got "
      ++ toString workouts_by_week.length)
  else
    .ok ⟨user, climate, workouts_by_week, cfg⟩

/-- The `UserProfile` literal built in `run_consultation`. -/
def consultUser : UserProfile :=
  { name := "Client", body_mass_kg := 70, vitamin_d_deficient_or_low_sun := true }

/-- The `Climate` literal built in `run_consultation`. -/
def consultClimate : Climate := { avg_temp_c := 30, avg_humidity_pct := 70 }

/-- The `week_pattern` list built in `run_consultation`. -/
def week_pattern : List Workout :=
  [{ day_of_week := "Mon", minutes := 45, intensity := "moderate" },
   { day_of_week := "Wed", minutes := 30, intensity := "vigorous" },
   { day_of_week := "Sat", minutes := 60, intensity := "moderate" }]

/-- `workouts_by_week = [week_pattern[:] for _ in range(2)]` — two weeks. -/
def consultWorkouts : List (List Workout) := List.replicate 2 week_pattern

/-- `run_consultation` from `consultation.py`, up to its control flow: the
fitness/nutrition stub dicts only append messages and never raise, so the
first fallible step is the `HydrationSupplementAgent` construction with the
default `PlanConfig`; only if it succeeds do `generate()` and the summarizer
run (the summarizer LLM call is abstracted as `summarize`). -/
def run_consultation (summarize : String → String) (user_input : String) :
    Except String String :=
  match mkAgent consultUser consultClimate consultWorkouts {} with
  | .error e => .error e
  | .ok _agent => .ok (summarize user_input)

end HydrationSupplement

/-! ## Concrete engine behaviours used as test stubs -/

/-- A response carrying final text: `finish_reason = "stop"`, no tool calls. -/
def finalChoice (t : String) : Choice := ⟨"stop", ⟨some t, []⟩⟩

/-- A response requesting capabilities: `finish_reason = "tool_calls"`,
`content = None`. -/
def toolChoice (calls : List ToolCall) : Choice := ⟨"tool_calls", ⟨none, calls⟩⟩

/-- An engine returning the same response to every request. -/
def constEngine (c : Choice) : Engine := fun _ => .ok c

/-- An engine whose transport fails on every call. -/
def failEngine (e : String) : Engine := fun _ => .error e

/-- An engine that returns a capability request on every call. -/
def alwaysToolEngine : Engine := fun _ => .ok (toolChoice [⟨"c1", "weather"⟩])

/-- An engine that returns empty final text first (driving the loop into the
forced fallback round) and then a fallback response with content `c` — shaped
as a capability request to show the fallback treats it as final text anyway. -/
def fbEngine (c : String) : Engine := fun req =>
  if req.idx = 0 then .ok (finalChoice "")
  else .ok ⟨"tool_calls", ⟨some c, [⟨"z1", "time"⟩]⟩⟩

/-- An engine requesting the capability `name` on its first call and
returning final text `"done"` afterwards. -/
def bogusEngine (name : String) : Engine := fun req =>
  if req.idx = 0 then .ok (toolChoice [⟨"call_1", name⟩])
  else .ok (finalChoice "done")

/-- An engine answering the first request with final text padded by
whitespace. -/
def wsFinalEngine : Engine := constEngine (finalChoice " plan \n")

/-- A nutritionist step stub used in concrete runs. -/
def wNutr : StateMap → Update := fun _ => [("nutrition_plan", "Eat balanced meals")]

/-- A hydration step stub used in concrete runs. -/
def wHydr : StateMap → Update := fun _ => [("hydration_supplement", "Drink 2.4 L daily")]

/-- The tool-result turns appended for one round, in request order, each
tagged with the id of its originating request. -/
def roundToolTurns (timeImpl weatherImpl : Except String String) (tcs : List ToolCall) : List Turn :=
  tcs.map (fun tc => Turn.tool tc.id (execute_tool timeImpl weatherImpl tc.fname))

/-- The transcript built by one round serving the single capability request
`name` from `bogusEngine`, used in claim C5. -/
def bogusRoundMsgs (timeImpl weatherImpl : Except String String) (name : String) : List Turn :=
  initMessages (pyStrip "build muscle")
    ++ [Turn.assistant none [⟨"call_1", name⟩],
        Turn.tool "call_1" (execute_tool timeImpl weatherImpl name)]

/-- A tiny concrete state used by the C7 witness. -/
def exampleState : StateMap := fun k => if k = "a" then some "1" else none

/-- Engine used by the C8 witness run. -/
def w8engine : Engine := constEngine (finalChoice "A strong plan")

/-- State after the human node in the C8 witness run. -/
def w8s1 : StateMap := applyUpdate initialState (human_node "get fit")

/-- Update produced by the fitness node in the C8 witness run. -/
def w8u : Update := [("fitness_plan", "A strong plan"), ("user_context", "get fit")]

/-- State after the fitness node in the C8 witness run. -/
def w8s2 : StateMap := applyUpdate w8s1 w8u

/-- State after the nutritionist node in the C8 witness run. -/
def w8s3 : StateMap := applyUpdate w8s2 (nutritionist_node wNutr w8s2)

/-- State after the hydration node in the C8 witness run. -/
def w8s4 : StateMap := applyUpdate w8s3 (hydration_supplement_node wHydr w8s3)

/-- Final state and trace of the C8 witness run. -/
def w8out : StateMap × List String :=
  (applyUpdate w8s4 (summarizer_node w8s4),
   ["human", "fitness_planner", "nutritionist", "hydration", "summarizer"])

/-! ## Helper lemmas -/

theorem dropWhile_dropWhile (p : Char → Bool) (l : List Char) :
    (l.dropWhile p).dropWhile p = l.dropWhile p := by
  induction l with
  | nil => rfl
  | cons a t ih =>
    by_cases h : p a
    · simp [List.dropWhile_cons, h, ih]
    · simp [List.dropWhile_cons, h]

theorem dropWhile_append_singleton (p : Char → Bool) (a : Char) (h : p a = false) :
    ∀ xs : List Char, ∃ z, (xs ++ [a]).dropWhile p = z ++ [a] := by
  intro xs
  induction xs with
  | nil => exact ⟨[], by simp [List.dropWhile_cons, h]⟩
  | cons x t ih =>
    by_cases hx : p x
    · obtain ⟨z, hz⟩ := ih
      exact ⟨z, by simp [List.dropWhile_cons, hx, hz]⟩
    · exact ⟨x :: t, by simp [List.dropWhile_cons, hx]⟩

theorem length_dropWhile_le (p : Char → Bool) (l : List Char) :
    (l.dropWhile p).length ≤ l.length := by
  induction l with
  | nil => simp
  | cons a t ih =>
    by_cases h : p a
    · simp only [List.dropWhile_cons, h, if_true]
      exact Nat.le_succ_of_le ih
    · simp [List.dropWhile_cons, h]

theorem stripEnd_dropWhile (l : List Char)
    (h : l.dropWhile Char.isWhitespace = l) :
    (stripEnd l).dropWhile Char.isWhitespace = stripEnd l := by
  cases hl : l with
  | nil => simp [stripEnd, List.dropWhile]
  | cons a t =>
    have ha : Char.isWhitespace a = false := by
      rcases hh : Char.isWhitespace a with _ | _
      · rfl
      · rw [hl, List.dropWhile_cons, hh] at h
        exfalso
        have hlen := congrArg List.length h
        simp only [if_true, List.length_cons] at hlen
        have := length_dropWhile_le Char.isWhitespace t
        omega
    obtain ⟨z, hz⟩ := dropWhile_append_singleton Char.isWhitespace a ha t.reverse
    have hse : stripEnd (a :: t) = a :: z.reverse := by
      simp [stripEnd, hz]
    rw [hse, List.dropWhile_cons, ha]
    simp

theorem stripEnd_stripEnd (l : List Char) : stripEnd (stripEnd l) = stripEnd l := by
  simp [stripEnd, List.reverse_reverse, dropWhile_dropWhile]

/-- `str.strip()` is idempotent: stripping an already stripped string changes nothing. -/
theorem pyStrip_idem (s : String) : pyStrip (pyStrip s) = pyStrip s := by
  show String.mk (stripEnd (((String.mk
      (stripEnd (s.data.dropWhile Char.isWhitespace))).data).dropWhile Char.isWhitespace))
    = String.mk (stripEnd (s.data.dropWhile Char.isWhitespace))
  have h1 : (stripEnd (s.data.dropWhile Char.isWhitespace)).dropWhile Char.isWhitespace
      = stripEnd (s.data.dropWhile Char.isWhitespace) :=
    stripEnd_dropWhile _ (dropWhile_dropWhile _ _)
  simp only [String.data]
  rw [h1, stripEnd_stripEnd]

theorem foldl_toolTurns (timeImpl weatherImpl : Except String String) (tcs : List ToolCall) :
    ∀ acc : List Turn,
      tcs.foldl (fun acc tc => acc ++ [Turn.tool tc.id (execute_tool timeImpl weatherImpl tc.fname)]) acc
        = acc ++ roundToolTurns timeImpl weatherImpl tcs := by
  induction tcs with
  | nil => intro acc; simp [roundToolTurns]
  | cons tc rest ih =>
    intro acc
    simp only [List.foldl_cons, ih, roundToolTurns, List.map_cons]
    simp

theorem loopRun_stop (engine : Engine) (timeImpl weatherImpl : Except String String)
    (fuel : Nat) (msgs : List Turn) (choice : Choice) (idx : Nat)
    (h : ¬(choice.finish_reason = "tool_calls" ∧ choice.message.tool_calls ≠ [])) :
    loopRun engine timeImpl weatherImpl fuel msgs choice idx = ⟨.ok choice, msgs, idx⟩ := by
  cases fuel with
  | zero => rfl
  | succ n => rw [loopRun, if_neg h]

theorem loopRun_toolstep (engine : Engine) (timeImpl weatherImpl : Except String String)
    (fuel : Nat) (msgs : List Turn) (choice : Choice) (idx : Nat)
    (h1 : choice.finish_reason = "tool_calls") (h2 : choice.message.tool_calls ≠ []) :
    loopRun engine timeImpl weatherImpl (fuel + 1) msgs choice idx =
      (match engine ⟨idx, ToolPolicy.auto,
          msgs ++ Turn.assistant choice.message.content choice.message.tool_calls
            :: roundToolTurns timeImpl weatherImpl choice.message.tool_calls⟩ with
        | .error e => ⟨.error e,
            msgs ++ Turn.assistant choice.message.content choice.message.tool_calls
              :: roundToolTurns timeImpl weatherImpl choice.message.tool_calls, idx + 1⟩
        | .ok chat => loopRun engine timeImpl weatherImpl fuel
            (msgs ++ Turn.assistant choice.message.content choice.message.tool_calls
              :: roundToolTurns timeImpl weatherImpl choice.message.tool_calls) chat (idx + 1)) := by
  rw [loopRun, if_pos ⟨h1, h2⟩]
  simp only [foldl_toolTurns, List.append_assoc, List.singleton_append]

theorem loopRun_nextIdx_le (engine : Engine) (timeImpl weatherImpl : Except String String) :
    ∀ (fuel : Nat) (msgs : List Turn) (choice : Choice) (idx : Nat),
      (loopRun engine timeImpl weatherImpl fuel msgs choice idx).nextIdx ≤ idx + fuel := by
  intro fuel
  induction fuel with
  | zero => intro msgs choice idx; simp [loopRun]
  | succ n ih =>
    intro msgs choice idx
    by_cases h : choice.finish_reason = "tool_calls" ∧ choice.message.tool_calls ≠ []
    · rw [loopRun_toolstep engine timeImpl weatherImpl n msgs choice idx h.1 h.2]
      cases engine ⟨idx, ToolPolicy.auto,
          msgs ++ Turn.assistant choice.message.content choice.message.tool_calls
            :: roundToolTurns timeImpl weatherImpl choice.message.tool_calls⟩ with
      | error e =>
        show idx + 1 ≤ idx + (n + 1)
        omega
      | ok chat =>
        calc (loopRun engine timeImpl weatherImpl n _ chat (idx + 1)).nextIdx
            ≤ (idx + 1) + n := ih _ _ _
          _ ≤ idx + (n + 1) := by omega
    · rw [loopRun_stop engine timeImpl weatherImpl _ msgs choice idx h]
      show idx ≤ idx + (n + 1)
      omega

theorem fitnessFallback_calls (engine : Engine) (msgs : List Turn) (idx : Nat) :
    (fitnessFallback engine msgs idx).calls = idx + 1 := by
  unfold fitnessFallback
  cases engine ⟨idx, ToolPolicy.disabled, msgs⟩ with
  | error e => rfl
  | ok chat =>
    obtain ⟨fr, cont, tcs⟩ := chat
    cases cont with
    | none => rfl
    | some c => rfl

theorem fitnessAfterLoop_calls_le (engine : Engine) (lo : LoopOut) :
    (fitnessAfterLoop engine lo).calls ≤ lo.nextIdx + 1 := by
  obtain ⟨res, msgs, idx⟩ := lo
  cases res with
  | error e => show idx ≤ idx + 1; omega
  | ok choice =>
    obtain ⟨fr, cont, tcs⟩ := choice
    cases cont with
    | none =>
      show (fitnessFallback engine msgs idx).calls ≤ idx + 1
      rw [fitnessFallback_calls]
    | some c =>
      by_cases hc : c ≠ ""
      · show (if c ≠ "" then _ else _ : FPOut).calls ≤ idx + 1
        rw [if_pos hc]
        show idx ≤ idx + 1
        omega
      · show (if c ≠ "" then _ else _ : FPOut).calls ≤ idx + 1
        rw [if_neg hc, fitnessFallback_calls]

/-! ## Claim theorems -/

/-- Claim C9: whenever `user_goal` is missing, `None`, or blank after
trimming, `fitness_planner` contacts the reasoning engine zero times and
returns, without crashing, a non-empty placeholder partial update asking the
user to provide the goal. -/
theorem C9_blank_goal_placeholder (engine : Engine) (timeImpl weatherImpl : Except String String)
    (g : Option String) (h : pyStrip (safe_str g) = "") :
    fitnessPlanner engine timeImpl weatherImpl g
      = ⟨.ok [("fitness_plan", goalPlaceholder)], 0, []⟩ ∧
    goalPlaceholder ≠ "" := by
  refine ⟨?_, by decide⟩
  unfold fitnessPlanner
  simp [h]

/-- Witness for C9: the goal is absent and the engine transport would even
fail, yet the placeholder update is returned with zero engine calls. -/
theorem C9_blank_goal_placeholder_witness :
    fitnessPlanner (failEngine "ConnectionError") (.ok "T") (.ok "W") none
      = ⟨.ok [("fitness_plan", goalPlaceholder)], 0, []⟩ ∧
    goalPlaceholder ≠ "" :=
  C9_blank_goal_placeholder (failEngine "ConnectionError") (.ok "T") (.ok "W") none rfl

/-- Claim C4, counterexample: an engine answering the first request with the
final text `" plan \n"` makes `fitness_planner` return `"plan"` — the text is
stripped, not returned unchanged. -/
theorem C4_counterexample :
    (fitnessPlanner wsFinalEngine (.ok "T") (.ok "W") (some "get fit")).result
      = .ok [("fitness_plan", "plan")] ∧ ("plan" : String) ≠ " plan \n" :=
  ⟨rfl, by decide⟩

/-- Claim C4 (amended): if the engine returns a final-text response with
non-empty content to the very first request, `fitness_planner` makes exactly
one reasoning-engine call and returns that text stripped of surrounding
whitespace as the `fitness_plan` field of its partial update. -/
theorem C4_single_call_stripped (engine : Engine) (timeImpl weatherImpl : Except String String)
    (goal t : String) (hg : pyStrip goal ≠ "") (ht : t ≠ "")
    (he : engine ⟨0, ToolPolicy.required, initMessages (pyStrip goal)⟩ = .ok (finalChoice t)) :
    fitnessPlanner engine timeImpl weatherImpl (some goal)
      = ⟨.ok [("fitness_plan", pyStrip t)], 1, initMessages (pyStrip goal)⟩ := by
  unfold fitnessPlanner
  simp only [safe_str]
  rw [if_neg hg, he]
  show fitnessAfterLoop engine (loopRun engine timeImpl weatherImpl maxToolHops
    (initMessages (pyStrip goal)) (finalChoice t) 1) = _
  rw [loopRun_stop engine timeImpl weatherImpl maxToolHops (initMessages (pyStrip goal))
    (finalChoice t) 1 (by simp [finalChoice])]
  show (if t ≠ "" then (⟨.ok [("fitness_plan", pyStrip t)], 1, initMessages (pyStrip goal)⟩ : FPOut)
      else fitnessFallback engine (initMessages (pyStrip goal)) 1)
    = ⟨.ok [("fitness_plan", pyStrip t)], 1, initMessages (pyStrip goal)⟩
  rw [if_pos ht]

/-- Witness for C4 (amended) at a concrete engine and goal. -/
theorem C4_single_call_stripped_witness :
    fitnessPlanner (constEngine (finalChoice "My plan")) (.ok "T") (.ok "W") (some "run more")
      = ⟨.ok [("fitness_plan", pyStrip "My plan")], 1, initMessages (pyStrip "run more")⟩ :=
  C4_single_call_stripped (constEngine (finalChoice "My plan")) (.ok "T") (.ok "W")
    "run more" "My plan" (by decide) (by decide) rfl

/-- Claim C1, counterexample: a run that reaches the forced fallback round
(first response is empty final text) and whose fallback call returns empty
text makes `fitness_planner` return the empty string as `fitness_plan` — no
fixed non-empty substitute message exists in the code. -/
theorem C1_counterexample :
    (fitnessPlanner (fbEngine "") (.ok "T") (.ok "W") (some "lose weight")).result
      = .ok [("fitness_plan", "")] :=
  rfl

/-- Claim C1 (amended): the fallback response is always treated as final text
(even when shaped as a capability request); whatever content it carries is
stripped and returned as-is, so an empty fallback text yields the empty
string — no substitute message.  First conjunct: any fallback call whose
response carries content `c` returns exactly `pyStrip c`.  Second conjunct:
the same through the whole of `fitness_planner` for an engine that forces the
fallback round. -/
theorem C1_fallback_text_verbatim :
    (∀ (engine : Engine) (msgs : List Turn) (idx : Nat) (ch : Choice) (c : String),
        engine ⟨idx, ToolPolicy.disabled, msgs⟩ = .ok ch →
        ch.message.content = some c →
        fitnessFallback engine msgs idx = ⟨.ok [("fitness_plan", pyStrip c)], idx + 1, msgs⟩) ∧
    (∀ (c goal : String) (timeImpl weatherImpl : Except String String),
        pyStrip goal ≠ "" →
        fitnessPlanner (fbEngine c) timeImpl weatherImpl (some goal)
          = ⟨.ok [("fitness_plan", pyStrip c)], 2, initMessages (pyStrip goal)⟩) := by
  constructor
  · intro engine msgs idx ch c he hc
    unfold fitnessFallback
    rw [he]
    show (match ch.message.content with
        | none => (⟨.error noneStripError, idx + 1, msgs⟩ : FPOut)
        | some c0 => ⟨.ok [("fitness_plan", pyStrip c0)], idx + 1, msgs⟩)
      = ⟨.ok [("fitness_plan", pyStrip c)], idx + 1, msgs⟩
    rw [hc]
  · intro c goal timeImpl weatherImpl hg
    unfold fitnessPlanner
    simp only [safe_str]
    rw [if_neg hg]
    have h0 : fbEngine c ⟨0, ToolPolicy.required, initMessages (pyStrip goal)⟩
        = .ok (finalChoice "") := rfl
    rw [h0]
    show fitnessAfterLoop (fbEngine c) (loopRun (fbEngine c) timeImpl weatherImpl maxToolHops
      (initMessages (pyStrip goal)) (finalChoice "") 1) = _
    rw [loopRun_stop (fbEngine c) timeImpl weatherImpl maxToolHops (initMessages (pyStrip goal))
      (finalChoice "") 1 (by simp [finalChoice])]
    show (if ("" : String) ≠ "" then
        (⟨.ok [("fitness_plan", pyStrip "")], 1, initMessages (pyStrip goal)⟩ : FPOut)
      else fitnessFallback (fbEngine c) (initMessages (pyStrip goal)) 1)
      = ⟨.ok [("fitness_plan", pyStrip c)], 2, initMessages (pyStrip goal)⟩
    rw [if_neg (by simp)]
    unfold fitnessFallback
    rfl

/-- Witness for C1 (amended): empty fallback content returns the empty plan. -/
theorem C1_fallback_text_verbatim_witness :
    fitnessPlanner (fbEngine "") (.ok "T") (.ok "W") (some "lose weight")
      = ⟨.ok [("fitness_plan", pyStrip "")], 2, initMessages (pyStrip "lose weight")⟩ :=
  C1_fallback_text_verbatim.2 "" "lose weight" (.ok "T") (.ok "W") (by decide)

/-- Claim C2: for every engine behaviour the (total, hence terminating)
tool-call loop of `fitness_planner` issues at most `H + 2 = 5` reasoning-engine
calls, and for an engine that returns a capability request on every call,
exactly `5` calls are issued. -/
theorem C2_hop_bound :
    (∀ (engine : Engine) (timeImpl weatherImpl : Except String String) (g : Option String),
        (fitnessPlanner engine timeImpl weatherImpl g).calls ≤ 5) ∧
    (fitnessPlanner alwaysToolEngine (.ok "T") (.ok "W") (some "get fit")).calls = 5 := by
  refine ⟨?_, rfl⟩
  intro engine timeImpl weatherImpl g
  unfold fitnessPlanner
  by_cases hg : pyStrip (safe_str g) = ""
  · rw [if_pos hg]
    show (0 : Nat) ≤ 5
    omega
  · rw [if_neg hg]
    cases h0 : engine ⟨0, ToolPolicy.required, initMessages (pyStrip (safe_str g))⟩ with
    | error e =>
      show (1 : Nat) ≤ 5
      omega
    | ok c0 =>
      show (fitnessAfterLoop engine (loopRun engine timeImpl weatherImpl maxToolHops
        (initMessages (pyStrip (safe_str g))) c0 1)).calls ≤ 5
      have hb := loopRun_nextIdx_le engine timeImpl weatherImpl maxToolHops
        (initMessages (pyStrip (safe_str g))) c0 1
      have hc := fitnessAfterLoop_calls_le engine (loopRun engine timeImpl weatherImpl maxToolHops
        (initMessages (pyStrip (safe_str g))) c0 1)
      simp only [maxToolHops] at hb hc ⊢
      omega

/-- Claim C7 (state merge, modelled from the spec since the merge lives in
the LangGraph framework): applying a partial update yields a state that
agrees with the update on every key present in it and with the old state on
every key absent from it; `applyUpdate` is a total function. -/
theorem C7_apply_merge (s : StateMap) (u : Update) (k : String) :
    (∀ v, u.lookup k = some v → applyUpdate s u k = some v) ∧
    (u.lookup k = none → applyUpdate s u k = s k) := by
  constructor
  · intro v hv
    simp [applyUpdate, hv]
  · intro hv
    simp [applyUpdate, hv]

/-- Witness for C7: `s = (a maps to 1)`, `u = (b maps to 2)` gives a merged state
with both keys, matching the spec example. -/
theorem C7_apply_merge_witness :
    applyUpdate exampleState [("b", "2")] "b" = some "2" ∧
    applyUpdate exampleState [("b", "2")] "a" = some "1" :=
  ⟨(C7_apply_merge exampleState [("b", "2")] "b").1 "2" rfl,
   by rw [(C7_apply_merge exampleState [("b", "2")] "a").2 rfl]; rfl⟩

/-- Claim C10: `HydrationSupplementAgent.__init__` raises `ValueError`
exactly when the number of week entries differs from `cfg.weeks`; and
`run_consultation`, which builds 2 weeks of workouts under the default
4-week config, raises on every input before any summary is produced. -/
theorem C10_consultation_weeks_mismatch :
    (∀ (u : HydrationSupplement.UserProfile) (c : HydrationSupplement.Climate)
        (w : List (List HydrationSupplement.Workout)) (cfg : HydrationSupplement.PlanConfig),
        (∃ e, HydrationSupplement.mkAgent u c w cfg = .error e) ↔ w.length ≠ cfg.weeks) ∧
    (∀ (summarize : String → String) (input : String),
        HydrationSupplement.run_consultation summarize input
          = .error "Expected 4 weeks of workouts, got 2") := by
  constructor
  · intro u c w cfg
    constructor
    · rintro ⟨e, he⟩
      by_contra hlen
      unfold HydrationSupplement.mkAgent at he
      rw [if_neg (fun hne => hne hlen)] at he
      exact Except.noConfusion he
    · intro hlen
      refine ⟨"Expected " ++ toString cfg.weeks ++ " weeks of workouts, got "
        ++ toString w.length, ?_⟩
      unfold HydrationSupplement.mkAgent
      rw [if_pos hlen]
  · intro summarize input
    rfl

theorem Except_bind_ok {α β : Type} (a : α) (f : α → Except String β) :
    (Except.ok a : Except String α).bind f = f a := rfl

theorem Except_bind_err {α β : Type} (e : String) (f : α → Except String β) :
    (Except.error e : Except String α).bind f = .error e := rfl

theorem Except_map_ok {α β : Type} (a : α) (f : α → β) :
    (Except.ok a : Except String α).map f = .ok (f a) := rfl

theorem Except_map_err {α β : Type} (e : String) (f : α → β) :
    (Except.error e : Except String α).map f = (.error e : Except String β) := rfl

theorem nodeFn_human (engine : Engine) (timeImpl weatherImpl : Except String String)
    (nutr hydr : StateMap → Update) (inp : String) (st : StateMap) :
    nodeFn engine timeImpl weatherImpl nutr hydr inp "human" st = .ok (human_node inp) := rfl

theorem nodeFn_fitness (engine : Engine) (timeImpl weatherImpl : Except String String)
    (nutr hydr : StateMap → Update) (inp : String) (st : StateMap) :
    nodeFn engine timeImpl weatherImpl nutr hydr inp "fitness_planner" st
      = fitness_planner_node engine timeImpl weatherImpl st := rfl

theorem nodeFn_nutritionist (engine : Engine) (timeImpl weatherImpl : Except String String)
    (nutr hydr : StateMap → Update) (inp : String) (st : StateMap) :
    nodeFn engine timeImpl weatherImpl nutr hydr inp "nutritionist" st
      = .ok (nutritionist_node nutr st) := rfl

theorem nodeFn_hydration (engine : Engine) (timeImpl weatherImpl : Except String String)
    (nutr hydr : StateMap → Update) (inp : String) (st : StateMap) :
    nodeFn engine timeImpl weatherImpl nutr hydr inp "hydration" st
      = .ok (hydration_supplement_node hydr st) := rfl

theorem nodeFn_summarizer (engine : Engine) (timeImpl weatherImpl : Except String String)
    (nutr hydr : StateMap → Update) (inp : String) (st : StateMap) :
    nodeFn engine timeImpl weatherImpl nutr hydr inp "summarizer" st
      = .ok (summarizer_node st) := rfl

theorem execOrder_main :
    execOrder buildGraphEdges 6 "START"
      = ["human", "fitness_planner", "nutritionist", "hydration", "summarizer"] := rfl

/-- Claim C5: a requested tool name that (after trimming and lowercasing) is
neither `time` nor `weather` makes `execute_tool` return the tagged
unknown-capability text without raising, and the tool-call loop appends that
text as a normal capability-result turn and carries on to the final answer
rather than aborting. -/
theorem C5_unknown_tool_resilience (timeImpl weatherImpl : Except String String) (name : String)
    (h1 : pyLower (pyStrip name) ≠ "time") (h2 : pyLower (pyStrip name) ≠ "weather") :
    execute_tool timeImpl weatherImpl name = "Unknown tool: " ++ pyLower (pyStrip name) ∧
    (fitnessPlanner (bogusEngine name) timeImpl weatherImpl (some "build muscle")).result
      = .ok [("fitness_plan", "done")] ∧
    Turn.tool "call_1" ("Unknown tool: " ++ pyLower (pyStrip name))
      ∈ (fitnessPlanner (bogusEngine name) timeImpl weatherImpl (some "build muscle")).transcript := by
  have hexec : execute_tool timeImpl weatherImpl name
      = "Unknown tool: " ++ pyLower (pyStrip name) := by
    unfold execute_tool
    rw [if_neg h1, if_neg h2]
  have hmain : fitnessPlanner (bogusEngine name) timeImpl weatherImpl (some "build muscle")
      = ⟨.ok [("fitness_plan", "done")], 2, bogusRoundMsgs timeImpl weatherImpl name⟩ := rfl
  refine ⟨hexec, ?_, ?_⟩
  · rw [hmain]
  · rw [hmain]
    show Turn.tool "call_1" ("Unknown tool: " ++ pyLower (pyStrip name))
      ∈ bogusRoundMsgs timeImpl weatherImpl name
    rw [← hexec]
    simp [bogusRoundMsgs]

/-- Witness for C5: the capability name `"bogus"` is unknown; the loop
continues and the transcript records the tagged text. -/
theorem C5_unknown_tool_resilience_witness :
    execute_tool (.ok "T") (.ok "W") "bogus" = "Unknown tool: " ++ pyLower (pyStrip "bogus") ∧
    (fitnessPlanner (bogusEngine "bogus") (.ok "T") (.ok "W") (some "build muscle")).result
      = .ok [("fitness_plan", "done")] ∧
    Turn.tool "call_1" ("Unknown tool: " ++ pyLower (pyStrip "bogus"))
      ∈ (fitnessPlanner (bogusEngine "bogus") (.ok "T") (.ok "W") (some "build muscle")).transcript :=
  C5_unknown_tool_resilience (.ok "T") (.ok "W") "bogus" (by decide) (by decide)

/-- Claim C6: within one tool-call round the requested capabilities are
executed in exactly the order the engine listed them — the transcript grows
by the assistant request turn followed by one tool turn per request, in list
order, the `i`-th tool turn carrying the id of the `i`-th request and the
result of executing the `i`-th requested name — after which the loop re-sends
the extended transcript. -/
theorem C6_round_order_and_attribution (engine : Engine)
    (timeImpl weatherImpl : Except String String) (fuel : Nat) (msgs : List Turn)
    (choice : Choice) (idx : Nat)
    (h1 : choice.finish_reason = "tool_calls") (h2 : choice.message.tool_calls ≠ []) :
    (loopRun engine timeImpl weatherImpl (fuel + 1) msgs choice idx =
      match engine ⟨idx, ToolPolicy.auto,
          msgs ++ Turn.assistant choice.message.content choice.message.tool_calls
            :: roundToolTurns timeImpl weatherImpl choice.message.tool_calls⟩ with
        | .error e => ⟨.error e,
            msgs ++ Turn.assistant choice.message.content choice.message.tool_calls
              :: roundToolTurns timeImpl weatherImpl choice.message.tool_calls, idx + 1⟩
        | .ok chat => loopRun engine timeImpl weatherImpl fuel
            (msgs ++ Turn.assistant choice.message.content choice.message.tool_calls
              :: roundToolTurns timeImpl weatherImpl choice.message.tool_calls) chat (idx + 1)) ∧
    ∀ (i : Nat) (hi : i < choice.message.tool_calls.length)
      (hj : i < (roundToolTurns timeImpl weatherImpl choice.message.tool_calls).length),
      (roundToolTurns timeImpl weatherImpl choice.message.tool_calls).get ⟨i, hj⟩
        = Turn.tool (choice.message.tool_calls.get ⟨i, hi⟩).id
            (execute_tool timeImpl weatherImpl (choice.message.tool_calls.get ⟨i, hi⟩).fname) := by
  refine ⟨loopRun_toolstep engine timeImpl weatherImpl fuel msgs choice idx h1 h2, ?_⟩
  intro i hi hj
  simp [roundToolTurns, List.get_eq_getElem, List.getElem_map]

/-- Witness for C6: a concrete two-capability round is served in order with
correct attribution. -/
theorem C6_round_order_and_attribution_witness :
    loopRun (constEngine (finalChoice "ok")) (.ok "T") (.ok "W") (1 + 1) []
        ⟨"tool_calls", ⟨none, [⟨"a1", "weather"⟩, ⟨"a2", "bogus"⟩]⟩⟩ 1
      = ⟨.ok (finalChoice "ok"),
         [Turn.assistant none [⟨"a1", "weather"⟩, ⟨"a2", "bogus"⟩],
          Turn.tool "a1" (execute_tool (.ok "T") (.ok "W") "weather"),
          Turn.tool "a2" (execute_tool (.ok "T") (.ok "W") "bogus")], 1 + 1⟩ := by
  rw [(C6_round_order_and_attribution (constEngine (finalChoice "ok")) (.ok "T") (.ok "W") 1 []
    ⟨"tool_calls", ⟨none, [⟨"a1", "weather"⟩, ⟨"a2", "bogus"⟩]⟩⟩ 1 rfl (by decide)).1]
  rfl

/-- Claim C3, counterexample: a reasoning-engine transport failure is not
converted into a degraded output — it propagates uncaught past the whole
pipeline run, leaving every advisory field unpopulated. -/
theorem C3_counterexample :
    runGraph (failEngine "ConnectionError: boom") (.ok "T") (.ok "W") wNutr wHydr
      "lose weight" initialState = .error "ConnectionError: boom" :=
  rfl

/-- Claim C3 (amended): a transport failure is surfaced once (exactly one
engine call is made, nothing is retried) and the exception then propagates
out of `fitness_planner`, out of its node, and out of the whole graph run —
past the Orchestrator — so no advisory field is populated; `main` catches it
only at top level, printing the error with a stack trace. -/
theorem C3_transport_error_propagates (e : String) (timeImpl weatherImpl : Except String String) :
    (∀ g : String, pyStrip g ≠ "" →
        (fitnessPlanner (failEngine e) timeImpl weatherImpl (some g)).result = .error e ∧
        (fitnessPlanner (failEngine e) timeImpl weatherImpl (some g)).calls = 1) ∧
    (∀ (nutr hydr : StateMap → Update) (input : String) (st0 : StateMap),
        pyStrip input ≠ "" →
        runGraph (failEngine e) timeImpl weatherImpl nutr hydr input st0 = .error e) := by
  have hfp : ∀ g : String, pyStrip g ≠ "" →
      fitnessPlanner (failEngine e) timeImpl weatherImpl (some g)
        = ⟨.error e, 1, initMessages (pyStrip g)⟩ := by
    intro g hg
    unfold fitnessPlanner
    simp only [safe_str]
    rw [if_neg hg]
    rfl
  constructor
  · intro g hg
    rw [hfp g hg]
    exact ⟨rfl, rfl⟩
  · intro nutr hydr input st0 hin
    have hin2 : pyStrip (pyStrip input) ≠ "" := by
      rw [pyStrip_idem]; exact hin
    have hfpn : fitness_planner_node (failEngine e) timeImpl weatherImpl
        (applyUpdate st0 (human_node input)) = .error e := by
      unfold fitness_planner_node
      rw [show (applyUpdate st0 (human_node input)) "user_goal"
        = some (pyStrip input) from rfl]
      rw [hfp (pyStrip input) hin2]
    unfold runGraph
    rw [execOrder_main]
    simp only [runNodes, nodeFn_human, nodeFn_fitness, Except_bind_ok]
    rw [hfpn]
    rfl

/-- Witness for C3 (amended) at a concrete error, input and pipeline. -/
theorem C3_transport_error_propagates_witness :
    ((fitnessPlanner (failEngine "APIConnectionError") (.ok "T") (.ok "W")
        (some "lose weight")).result = .error "APIConnectionError" ∧
      (fitnessPlanner (failEngine "APIConnectionError") (.ok "T") (.ok "W")
        (some "lose weight")).calls = 1) ∧
    runGraph (failEngine "APIConnectionError") (.ok "T") (.ok "W") wNutr wHydr
      "lose weight" initialState = .error "APIConnectionError" :=
  ⟨(C3_transport_error_propagates "APIConnectionError" (.ok "T") (.ok "W")).1
      "lose weight" (by decide),
   (C3_transport_error_propagates "APIConnectionError" (.ok "T") (.ok "W")).2
      wNutr wHydr "lose weight" initialState (by decide)⟩

/-- Claim C8: a successful pipeline run executes exactly the five nodes
`human`, `fitness_planner`, `nutritionist`, `hydration`, `summarizer`, each
once, in the declared order with no branching, re-entry or skipping, and each
node's partial update is applied to the shared state before the next node
runs (each later node is evaluated at the already-updated state). -/
theorem C8_pipeline_order (engine : Engine) (timeImpl weatherImpl : Except String String)
    (nutr hydr : StateMap → Update) (input : String) (st0 : StateMap)
    (out : StateMap × List String)
    (h : runGraph engine timeImpl weatherImpl nutr hydr input st0 = .ok out) :
    out.2 = ["human", "fitness_planner", "nutritionist", "hydration", "summarizer"] ∧
    ∃ u, fitness_planner_node engine timeImpl weatherImpl
        (applyUpdate st0 (human_node input)) = .ok u ∧
      out.1 = (let s1 := applyUpdate st0 (human_node input)
               let s2 := applyUpdate s1 u
               let s3 := applyUpdate s2 (nutritionist_node nutr s2)
               let s4 := applyUpdate s3 (hydration_supplement_node hydr s3)
               applyUpdate s4 (summarizer_node s4)) := by
  unfold runGraph at h
  rw [execOrder_main] at h
  simp only [runNodes, nodeFn_human, nodeFn_fitness, nodeFn_nutritionist, nodeFn_hydration,
    nodeFn_summarizer, Except_bind_ok, Except_map_ok] at h
  cases hfp : fitness_planner_node engine timeImpl weatherImpl
      (applyUpdate st0 (human_node input)) with
  | error err =>
    rw [hfp, Except_bind_err, Except_map_err] at h
    exact Except.noConfusion h
  | ok u =>
    rw [hfp] at h
    simp only [Except_bind_ok, Except_map_ok] at h
    injection h with h
    subst h
    exact ⟨rfl, u, rfl, rfl⟩

/-- Witness for C8: a concrete successful run executes the five nodes once
each, in order, threading the state through each applied update. -/
theorem C8_pipeline_order_witness :
    w8out.2 = ["human", "fitness_planner", "nutritionist", "hydration", "summarizer"] ∧
    ∃ u, fitness_planner_node w8engine (.ok "T") (.ok "W")
        (applyUpdate initialState (human_node "get fit")) = .ok u ∧
      w8out.1 = (let s1 := applyUpdate initialState (human_node "get fit")
                 let s2 := applyUpdate s1 u
                 let s3 := applyUpdate s2 (nutritionist_node wNutr s2)
                 let s4 := applyUpdate s3 (hydration_supplement_node wHydr s3)
                 applyUpdate s4 (summarizer_node s4)) :=
  C8_pipeline_order w8engine (.ok "T") (.ok "W") wNutr wHydr "get fit" initialState w8out rfl

/-- Witness for C10: the consultation inputs violate the week-count check,
and the concrete run fails with the `ValueError` message. -/
theorem C10_consultation_weeks_mismatch_witness :
    (∃ e, HydrationSupplement.mkAgent HydrationSupplement.consultUser
        HydrationSupplement.consultClimate HydrationSupplement.consultWorkouts {}
        = .error e) ∧
    HydrationSupplement.run_consultation id "I want to reduce 5kg in 2 weeks"
      = .error "Expected 4 weeks of workouts, got 2" :=
  ⟨(C10_consultation_weeks_mismatch.1 _ _ _ _).mpr (by decide),
   C10_consultation_weeks_mismatch.2 id _⟩

end LiveWell
